import Mathlib

/-!
Shallow embedding of the AIPilot workflow-node core (Rust) in Lean 4.

Modelling conventions:
* Rust `f64` option fields hold only ordinary numeric literals in this code
  base, so they are modelled as `ℚ`; every use is an order comparison.
* Rust `i64` counters are modelled as `Int` together with explicit wrapping
  `% 2^64` in the one place arithmetic is performed (`DeepSeekUsage` addition).
* JSON values (the `json` crate's `JsonValue`) are modelled by an inductive
  type; numbers carry either an integer or a rational payload.  Float
  rendering inside `dump` is not byte-faithful to the crate's shortest-float
  printer; no verified statement depends on that branch.
* The HTTP transport is modelled by an oracle (`NetOutcome`) supplied as an
  argument; a performed POST is recorded as an explicit `HttpRequest` value.
-/

/-- One round of the chat (src/worknode/ai_node.rs, `struct Chat`). -/
structure Chat where
  role : String
  content : String
deriving Repr, DecidableEq

/-- Embeds `Chat::new` (src/worknode/ai_node.rs). -/
def Chat.new (role : String) (content : String) : Chat :=
  { role := role, content := content }

/-- The `json` crate's value type, as used by the repository. -/
inductive JsonValue where
  | null : JsonValue
  | bool (b : Bool) : JsonValue
  | numI (n : Int) : JsonValue
  | numQ (q : ℚ) : JsonValue
  | str (s : String) : JsonValue
  | arr (xs : List JsonValue) : JsonValue
  | obj (fields : List (String × JsonValue)) : JsonValue
deriving Repr

/-- JSON string escaping for one character, as performed by the `json`
crate's generator. -/
def escapeChar (c : Char) : String :=
  if c = '"' then "\\\""
  else if c = '\\' then "\\\\"
  else if c = '\n' then "\\n"
  else if c = '\r' then "\\r"
  else if c = '\t' then "\\t"
  else if c.toNat = 8 then "\\b"
  else if c.toNat = 12 then "\\f"
  else if c.toNat < 32 then "\\u" ++ (Nat.toDigits 16 c.toNat).asString
  else String.singleton c

/-- JSON string escaping (body of a quoted JSON string). -/
def escapeString (s : String) : String :=
  String.join (s.toList.map escapeChar)

mutual

/-- The `json` crate's `JsonValue::dump` (compact serialization).  Float
rendering here (`numQ`) is a placeholder rendering; no theorem below
inspects it. -/
def JsonValue.dump : JsonValue → String
  | .null => "null"
  | .bool b => if b then "true" else "false"
  | .numI n => toString n
  | .numQ q => toString q
  | .str s => "\"" ++ escapeString s ++ "\""
  | .arr xs => "[" ++ JsonValue.dumpArr xs ++ "]"
  | .obj fs => "\x7b" ++ JsonValue.dumpObj fs ++ "\x7d"

/-- Comma-separated dump of an array's elements. -/
def JsonValue.dumpArr : List JsonValue → String
  | [] => ""
  | [x] => x.dump
  | x :: y :: xs => x.dump ++ "," ++ JsonValue.dumpArr (y :: xs)

/-- Comma-separated dump of an object's fields. -/
def JsonValue.dumpObj : List (String × JsonValue) → String
  | [] => ""
  | [(k, v)] => "\"" ++ escapeString k ++ "\":" ++ v.dump
  | (k, v) :: f :: fs =>
      "\"" ++ escapeString k ++ "\":" ++ v.dump ++ "," ++ JsonValue.dumpObj (f :: fs)

end

/-- The `json` crate's `Display` for `JsonValue`: strings print raw
(unquoted), scalars print directly, arrays/objects fall back to `dump`. -/
def JsonValue.displayString : JsonValue → String
  | .null => "null"
  | .bool b => if b then "true" else "false"
  | .numI n => toString n
  | .numQ q => toString q
  | .str s => s
  | .arr xs => JsonValue.dump (.arr xs)
  | .obj fs => JsonValue.dump (.obj fs)

/-- Indexing a `JsonValue` by string key (`Index<&str>` in the `json`
crate): member lookup on objects, `Null` otherwise. -/
def JsonValue.getKey (j : JsonValue) (k : String) : JsonValue :=
  match j with
  | .obj fields =>
      match fields.find? (fun f => f.1 == k) with
      | some f => f.2
      | none => .null
  | _ => .null

/-- Indexing a `JsonValue` by position (`Index<usize>` in the `json`
crate): element lookup on arrays, `Null` otherwise. -/
def JsonValue.getIdx (j : JsonValue) (i : Nat) : JsonValue :=
  match j with
  | .arr xs => xs.getD i .null
  | _ => .null

/-- Embeds `JsonValue::is_null`. -/
def JsonValue.is_null : JsonValue → Bool
  | .null => true
  | _ => false

/-- Embeds `JsonValue::is_empty` from the `json` crate: null, `false`, zero, the
empty string, empty array and empty object are empty. -/
def JsonValue.is_empty : JsonValue → Bool
  | .null => true
  | .bool b => !b
  | .numI n => n == 0
  | .numQ q => q == 0
  | .str s => s.isEmpty
  | .arr xs => xs.isEmpty
  | .obj fs => fs.isEmpty

/-- Embeds `JsonValue::as_i64`: integral numbers convert, everything else is
`None`. -/
def JsonValue.as_i64 : JsonValue → Option Int
  | .numI n => some n
  | .numQ q => if q.den = 1 then some q.num else none
  | _ => none

/-- Signed 64-bit wrap-around, making `i64` overflow explicit. -/
def i64wrap (x : Int) : Int :=
  (x + 2 ^ 63) % 2 ^ 64 - 2 ^ 63

/-- The value is representable as an `i64`. -/
def i64InRange (x : Int) : Prop :=
  -(2 ^ 63) ≤ x ∧ x < 2 ^ 63

instance (x : Int) : Decidable (i64InRange x) := by
  unfold i64InRange; infer_instance

/-- Usage statistics (src/worknode/ai_node/deepseek.rs,
`struct DeepSeekUsage`); `i64` counters modelled as `Int`. -/
structure DeepSeekUsage where
  completion_tokens : Int
  prompt_tokens : Int
  prompt_cache_hit_tokens : Int
  prompt_cache_miss_tokens : Int
  total_tokens : Int
deriving Repr, DecidableEq

/-- Embeds `DeepSeekUsage::new`: the all-zero value. -/
def DeepSeekUsage.new : DeepSeekUsage :=
  { completion_tokens := 0
    prompt_tokens := 0
    prompt_cache_hit_tokens := 0
    prompt_cache_miss_tokens := 0
    total_tokens := 0 }

/-- Embeds `impl Add for DeepSeekUsage`: field-wise `i64` addition (wrapping made
explicit). -/
def DeepSeekUsage.add (a b : DeepSeekUsage) : DeepSeekUsage :=
  { completion_tokens := i64wrap (a.completion_tokens + b.completion_tokens)
    prompt_tokens := i64wrap (a.prompt_tokens + b.prompt_tokens)
    prompt_cache_hit_tokens :=
      i64wrap (a.prompt_cache_hit_tokens + b.prompt_cache_hit_tokens)
    prompt_cache_miss_tokens :=
      i64wrap (a.prompt_cache_miss_tokens + b.prompt_cache_miss_tokens)
    total_tokens := i64wrap (a.total_tokens + b.total_tokens) }

/-- All five counters are `i64`-representable (true of every state the Rust
program can hold). -/
def DeepSeekUsage.Wf (u : DeepSeekUsage) : Prop :=
  i64InRange u.completion_tokens ∧ i64InRange u.prompt_tokens ∧
    i64InRange u.prompt_cache_hit_tokens ∧
    i64InRange u.prompt_cache_miss_tokens ∧ i64InRange u.total_tokens

instance (u : DeepSeekUsage) : Decidable u.Wf := by
  unfold DeepSeekUsage.Wf; infer_instance

/-- Embeds `enum DeepSeekModel`. -/
inductive DeepSeekModel where
  | DeepseekChat
  | DeepseekReasoner
deriving Repr, DecidableEq

/-- Embeds `impl Display for DeepSeekModel`. -/
def DeepSeekModel.toString : DeepSeekModel → String
  | .DeepseekChat => "deepseek-chat"
  | .DeepseekReasoner => "deepseek-reasoner"

/-- Embeds `enum ResponseFormat`. -/
inductive ResponseFormat where
  | Text
  | Json
deriving Repr, DecidableEq

/-- Embeds `impl Display for ResponseFormat`. -/
def ResponseFormat.toString : ResponseFormat → String
  | .Text => "text"
  | .Json => "json"

/-- Embeds `struct StreamOption`. -/
structure StreamOption where
  include_usage : Bool
deriving Repr, DecidableEq

/-- Embeds `DEEPSEEK_API_URL` (src/worknode/ai_node/deepseek.rs). -/
def DEEPSEEK_API_URL : String := "https://api.deepseek.com/chat/completions"

/-- Embeds `enum DeepSeekErrorType` (src/error/ai_node_error/deepseek_error.rs).
The `ResponseError` variant is referenced throughout
src/worknode/ai_node/deepseek.rs although the error-module snapshot in the
repository omits its declaration; it is included here because the client
code uses it. -/
inductive DeepSeekErrorType where
  | RequestParamError
  | RequestError
  | ApiKeyError
  | ResponseError
deriving Repr, DecidableEq

/-- Embeds `struct DeepSeekError`. -/
structure DeepSeekError where
  error_type : DeepSeekErrorType
  message : String
deriving Repr, DecidableEq

/-- Embeds `DeepSeekError::new`. -/
def DeepSeekError.new (error_type : DeepSeekErrorType) (message : String) :
    DeepSeekError :=
  { error_type := error_type, message := message }

/-- Embeds `struct DeepSeekClient` (src/worknode/ai_node/deepseek.rs); the
`frequency_panalty` spelling is the source's. -/
structure DeepSeekClient where
  url : String
  api_key : Option String
  model : DeepSeekModel
  frequency_panalty : Option ℚ
  max_tokens : Option Int
  presence_penalty : Option ℚ
  response_format : Option ResponseFormat
  stream : Option Bool
  stream_option : Option StreamOption
  temperature : Option ℚ
  top_p : Option ℚ
  logprobs : Bool
  top_logprobs : Option Int
  total_usage : DeepSeekUsage
  last_usage : DeepSeekUsage
deriving Repr, DecidableEq

/-- Embeds `DeepSeekClient::new`. -/
def DeepSeekClient.new (url : String) (model : DeepSeekModel) : DeepSeekClient :=
  { url := url
    api_key := none
    model := model
    frequency_panalty := none
    max_tokens := none
    presence_penalty := none
    response_format := none
    stream := none
    stream_option := none
    temperature := none
    top_p := none
    logprobs := false
    top_logprobs := none
    total_usage := DeepSeekUsage.new
    last_usage := DeepSeekUsage.new }

/-- Embeds `DeepSeekClient::default_frequency_panalty`. -/
def DeepSeekClient.default_frequency_panalty : ℚ := 0

/-- Embeds `DeepSeekClient::default_max_tokens`. -/
def DeepSeekClient.default_max_tokens : Int := 4096

/-- Embeds `DeepSeekClient::default_presence_penalty`. -/
def DeepSeekClient.default_presence_penalty : ℚ := 0

/-- Embeds `DeepSeekClient::default_response_format`. -/
def DeepSeekClient.default_response_format : ResponseFormat := .Text

/-- Embeds `DeepSeekClient::default_stream`. -/
def DeepSeekClient.default_stream : Bool := false

/-- Embeds `DeepSeekClient::default_temperature`. -/
def DeepSeekClient.default_temperature : ℚ := 1

/-- Embeds `DeepSeekClient::default_top_p`. -/
def DeepSeekClient.default_top_p : ℚ := 1

/-- Embeds `DeepSeekClient::check_frequency_panalty`. -/
def DeepSeekClient.check_frequency_panalty (c : DeepSeekClient) : Bool :=
  match c.frequency_panalty with
  | some v => if v < -2 ∨ v > 2 then false else true
  | none => true

/-- Embeds `DeepSeekClient::check_max_tokens`. -/
def DeepSeekClient.check_max_tokens (c : DeepSeekClient) : Bool :=
  match c.max_tokens with
  | some v => if v < 1 ∨ v > 8192 then false else true
  | none => true

/-- Embeds `DeepSeekClient::check_presence_penalty`. -/
def DeepSeekClient.check_presence_penalty (c : DeepSeekClient) : Bool :=
  match c.presence_penalty with
  | some v => if v < -2 ∨ v > 2 then false else true
  | none => true

/-- Embeds `DeepSeekClient::check_stream_option`. -/
def DeepSeekClient.check_stream_option (c : DeepSeekClient) : Bool :=
  c.stream_option.isNone ||
    match c.stream with
    | some stream => stream
    | none => DeepSeekClient.default_stream

/-- Embeds `DeepSeekClient::check_temperature`. -/
def DeepSeekClient.check_temperature (c : DeepSeekClient) : Bool :=
  match c.temperature with
  | some v => if v < 0 ∨ v > 2 then false else true
  | none => true

/-- Embeds `DeepSeekClient::check_top_p`. -/
def DeepSeekClient.check_top_p (c : DeepSeekClient) : Bool :=
  match c.top_p with
  | some v => if v < 0 ∨ v > 1 then false else true
  | none => true

/-- Embeds `DeepSeekClient::check_top_logprobs`. -/
def DeepSeekClient.check_top_logprobs (c : DeepSeekClient) : Bool :=
  c.logprobs || c.top_logprobs.isNone

/-- Embeds `DeepSeekClient::check_params`. -/
def DeepSeekClient.check_params (c : DeepSeekClient) : Bool :=
  c.check_frequency_panalty && c.check_max_tokens && c.check_presence_penalty &&
    c.check_stream_option && c.check_temperature && c.check_top_p &&
    c.check_top_logprobs && c.api_key.isSome

/-- Embeds `DeepSeekClient::chats_to_json`. -/
def DeepSeekClient.chats_to_json (chats : List Chat) : JsonValue :=
  .arr (chats.map (fun chat =>
    .obj [("content", .str chat.content), ("role", .str chat.role)]))

/-- The JSON object built by `DeepSeekClient::into_request_string` before the
final `.dump()`; field order and wire keys are exactly those of the `object!`
literal in the source (in particular the `frequency_panalty` key spelling). -/
def DeepSeekClient.into_request_obj (c : DeepSeekClient) (msg : JsonValue) :
    JsonValue :=
  .obj [
    ("messages", msg),
    ("model", .str c.model.toString),
    ("frequency_panalty",
      .numQ (c.frequency_panalty.getD DeepSeekClient.default_frequency_panalty)),
    ("max_tokens", .numI (c.max_tokens.getD DeepSeekClient.default_max_tokens)),
    ("presence_penalty",
      .numQ (c.presence_penalty.getD DeepSeekClient.default_presence_penalty)),
    ("response_format",
      .obj [("type",
        .str (c.response_format.getD DeepSeekClient.default_response_format).toString)]),
    ("stop", .null),
    ("stream", .bool (c.stream.getD DeepSeekClient.default_stream)),
    ("stream_options",
      match c.stream_option with
      | some so => .obj [("include_usage", .bool so.include_usage)]
      | none => .null),
    ("temperature",
      .numQ (c.temperature.getD DeepSeekClient.default_temperature)),
    ("top_p", .numQ (c.top_p.getD DeepSeekClient.default_top_p)),
    ("tools", .null),
    ("tool_choice", .str "none"),
    ("logprobs", .bool c.logprobs),
    ("top_logprobs",
      match c.top_logprobs with
      | some n => .numI n
      | none => .null)]

/-- Embeds `DeepSeekClient::into_request_string`: the request object, dumped. -/
def DeepSeekClient.into_request_string (c : DeepSeekClient) (msg : JsonValue) :
    String :=
  (c.into_request_obj msg).dump

/-- One HTTP POST as prepared by `DeepSeekClient::send_request_raw`
(target, headers, body); the body is kept at the JSON-tree level. -/
structure HttpRequest where
  url : String
  headers : List (String × String)
  bodyObj : JsonValue

/-- The body of an HTTP response, as the client consumes it: reading the
text may fail, parsing the text as JSON may fail, or a JSON value results. -/
inductive ResponseBody where
  | unreadable
  | unparseable
  | json (j : JsonValue)

/-- Transport oracle: what the network does with the single POST. -/
inductive NetOutcome where
  | sendFailed
  | badStatus (status : String) (detail : String)
  | success (body : ResponseBody)

/-- Embeds `DeepSeekClient::send_request_raw`: the request that is POSTed (fixed
`DEEPSEEK_API_URL` target, JSON content type, bearer auth) paired with the
outcome as the source maps it (transport failure and non-success status
become `RequestError`s). -/
def DeepSeekClient.send_request_raw (request : JsonValue) (api_key : String)
    (net : NetOutcome) : HttpRequest × Except DeepSeekError ResponseBody :=
  ({ url := DEEPSEEK_API_URL
     headers := [("Content-Type", "application/json"),
       ("Authorization", "Bearer " ++ api_key)]
     bodyObj := request },
   match net with
   | .sendFailed =>
       .error (DeepSeekError.new .RequestError "Failed to send request.")
   | .badStatus status detail =>
       .error (DeepSeekError.new .RequestError
         ("Request failed with status: " ++ status ++ ", " ++ detail))
   | .success body => .ok body)

/-- Embeds `DeepSeekClient::send_request`.  Returns the updated client, the POST
that was performed (`none` when validation failed and no network attempt was
made) and the result.  Mirrors the source's control flow: validation, body
construction, transport, response-shape checks in order, then the usage
counters are stored and accumulated. -/
def DeepSeekClient.send_request (c : DeepSeekClient) (chats : List Chat)
    (net : NetOutcome) :
    DeepSeekClient × Option HttpRequest × Except DeepSeekError JsonValue :=
  if !c.check_params then
    (c, none,
      .error (DeepSeekError.new .RequestParamError "The parameters are not valid."))
  else
    let request := c.into_request_obj (DeepSeekClient.chats_to_json chats)
    let api_key := c.api_key.getD ""
    let (httpReq, raw) := DeepSeekClient.send_request_raw request api_key net
    match raw with
    | .error e => (c, some httpReq, .error e)
    | .ok .unreadable =>
        (c, some httpReq,
          .error (DeepSeekError.new .RequestError "Failed to read response text."))
    | .ok .unparseable =>
        (c, some httpReq,
          .error (DeepSeekError.new .RequestError "Failed to parse response text."))
    | .ok (.json response_text) =>
        let content :=
          (((response_text.getKey "choices").getIdx 0).getKey "message").getKey
            "content"
        if content.is_null then
          (c, some httpReq,
            .error (DeepSeekError.new .ResponseError
              "The response format is not valid."))
        else if content.is_empty then
          (c, some httpReq,
            .error (DeepSeekError.new .ResponseError "The response is empty."))
        else
          let usage := response_text.getKey "usage"
          if usage.is_null then
            (c, some httpReq,
              .error (DeepSeekError.new .ResponseError
                "The response does not contain usage statistics."))
          else if usage.is_empty then
            (c, some httpReq,
              .error (DeepSeekError.new .ResponseError
                "The usage statistics is empty."))
          else
            match (usage.getKey "completion_tokens").as_i64 with
            | none =>
                (c, some httpReq,
                  .error (DeepSeekError.new .ResponseError
                    "The response does not contain completion tokens."))
            | some ct =>
            match (usage.getKey "prompt_tokens").as_i64 with
            | none =>
                (c, some httpReq,
                  .error (DeepSeekError.new .ResponseError
                    "The response does not contain prompt tokens."))
            | some pt =>
            match (usage.getKey "prompt_cache_hit_tokens").as_i64 with
            | none =>
                (c, some httpReq,
                  .error (DeepSeekError.new .ResponseError
                    "The response does not contain prompt cache hit tokens."))
            | some ph =>
            match (usage.getKey "prompt_cache_miss_tokens").as_i64 with
            | none =>
                (c, some httpReq,
                  .error (DeepSeekError.new .ResponseError
                    "The response does not contain prompt cache miss tokens."))
            | some pm =>
            match (usage.getKey "total_tokens").as_i64 with
            | none =>
                (c, some httpReq,
                  .error (DeepSeekError.new .ResponseError
                    "The response does not contain total tokens."))
            | some tt =>
                let last : DeepSeekUsage :=
                  { completion_tokens := ct
                    prompt_tokens := pt
                    prompt_cache_hit_tokens := ph
                    prompt_cache_miss_tokens := pm
                    total_tokens := tt }
                ({ c with
                    last_usage := last
                    total_usage := c.total_usage.add last },
                 some httpReq, .ok response_text)

/-- Embeds `enum AINodeErrorType` (src/error/ai_node_error.rs). -/
inductive AINodeErrorType where
  | DeepSeekError (e : DeepSeekError)
deriving Repr, DecidableEq

/-- Embeds `struct AINodeError`. -/
structure AINodeError where
  error_type : AINodeErrorType
  message : String
deriving Repr, DecidableEq

/-- Embeds `AINodeError::new`. -/
def AINodeError.new (error_type : AINodeErrorType) (message : String) :
    AINodeError :=
  { error_type := error_type, message := message }

/-- Embeds `enum PilotErrorType` (src/error.rs). -/
inductive PilotErrorType where
  | AINodeErr (e : AINodeError)
deriving Repr, DecidableEq

/-- Embeds `struct PilotError`. -/
structure PilotError where
  error_type : PilotErrorType
  message : String
deriving Repr, DecidableEq

/-- Embeds `PilotError::new`. -/
def PilotError.new (error_type : PilotErrorType) (message : String) :
    PilotError :=
  { error_type := error_type, message := message }

/-- Embeds `enum AIService` (src/worknode/ai_node.rs): one variant today. -/
inductive AIService where
  | DeepSeek (client : DeepSeekClient)
deriving Repr, DecidableEq

/-- Embeds `struct AINode` (src/worknode/ai_node.rs); the `histroy` spelling is the
source's. -/
structure AINode where
  service : AIService
  role : Option String
  histroy : List Chat
  prompt_prefix : String
  prompt_suffix : String
  input : String
deriving Repr, DecidableEq

/-- Embeds `AINode::new`. -/
def AINode.new (service : AIService) : AINode :=
  { service := service
    role := none
    histroy := []
    prompt_prefix := ""
    prompt_suffix := ""
    input := "" }

/-- The client owned by the node's single service variant. -/
def AINode.client (n : AINode) : DeepSeekClient :=
  match n.service with
  | .DeepSeek client => client

/-- Embeds `AINode::role`, the fluent builder (src/worknode/ai_node.rs:114-129).
Named `roleBuilder` because the Rust method shares its name with the `role`
field.  `none` models the panic of the out-of-bounds write
`self.histroy[0] = …` that the source performs when the role was already set
but the history is empty. -/
def AINode.roleBuilder (n : AINode) (role : Option String) : Option AINode :=
  let original_role_is_none := n.role.isNone
  let n := { n with role := role }
  match n.role with
  | none => some n
  | some r =>
      if original_role_is_none then
        some { n with histroy := Chat.new "system" r :: n.histroy }
      else if n.histroy.isEmpty then
        none
      else
        some { n with histroy := n.histroy.set 0 (Chat.new "system" r) }

/-- Embeds `AINode::set_role`: the plain mutating setter. -/
def AINode.set_role (n : AINode) (role : Option String) : AINode :=
  { n with role := role }

/-- Embeds `AINode::execute` (src/worknode/ai_node.rs:88-112): compose the prompt,
append the user turn, delegate to the client, then append the assistant turn
on success.  Returns the updated node and the result. -/
def AINode.execute (n : AINode) (net : NetOutcome) :
    AINode × Except AINodeError String :=
  match n.service with
  | .DeepSeek client =>
      let prompt :=
        AINode.prompt_prefix n ++ "\n" ++ n.input ++ "\n" ++ n.prompt_suffix
      let histroy1 := n.histroy ++ [Chat.new "user" prompt]
      let (client1, _req, result) := client.send_request histroy1 net
      let n1 : AINode :=
        { n with service := .DeepSeek client1, histroy := histroy1 }
      match result with
      | .error e =>
          (n1, .error (AINodeError.new (.DeepSeekError e)
            "Failed to send request to DeepSeek"))
      | .ok response =>
          let response_text :=
            ((((response.getKey "choices").getIdx 0).getKey "message").getKey
              "content").displayString
          ({ n1 with
              histroy := n1.histroy ++ [Chat.new "assistant" response_text] },
           .ok response_text)

/-- Embeds `enum Worknodecore` (src/worknode.rs). -/
inductive Worknodecore where
  | Start
  | End
  | AINode (node : AINode)
  | Local
  | User
deriving Repr, DecidableEq

/-- Embeds `Worknodecore::excute` (src/worknode.rs:37-47): dispatch.  The AI
variant delegates to `AINode::execute` and wraps a failure in one
`PilotError` layer; every other variant returns `Ok("")`.  The `input`
string is the argument of the source method. -/
def Worknodecore.excute (w : Worknodecore) (input : String) (net : NetOutcome) :
    Worknodecore × Except PilotError String :=
  match w with
  | .AINode node =>
      let (node1, r) := node.execute net
      (.AINode node1,
        match r with
        | .ok s => .ok s
        | .error e =>
            .error (PilotError.new (.AINodeErr e) "AI node failed to execute"))
  | w => (w, .ok "")

theorem i64wrap_wrap_left (x y : Int) :
    i64wrap (i64wrap x + y) = i64wrap (x + y) := by
  simp only [i64wrap]
  omega

theorem i64wrap_wrap_right (x y : Int) :
    i64wrap (x + i64wrap y) = i64wrap (x + y) := by
  simp only [i64wrap]
  omega

/-- C5: `DeepSeekUsage` with `add` is a commutative monoid: addition is
field-wise on the five counters, associative and commutative, and the
all-zero `DeepSeekUsage.new` is a two-sided identity on every
`i64`-representable value. -/
theorem deepSeekUsage_add_comm_monoid (a b c : DeepSeekUsage) (ha : a.Wf) :
    (a.add b).add c = a.add (b.add c) ∧ a.add b = b.add a ∧
      a.add DeepSeekUsage.new = a ∧ DeepSeekUsage.new.add a = a := by
  obtain ⟨a1, a2, a3, a4, a5⟩ := a
  obtain ⟨b1, b2, b3, b4, b5⟩ := b
  obtain ⟨c1, c2, c3, c4, c5⟩ := c
  simp only [DeepSeekUsage.Wf, i64InRange] at ha
  obtain ⟨⟨l1, r1⟩, ⟨l2, r2⟩, ⟨l3, r3⟩, ⟨l4, r4⟩, ⟨l5, r5⟩⟩ := ha
  refine ⟨?_, ?_, ?_, ?_⟩ <;>
    simp only [DeepSeekUsage.add, DeepSeekUsage.new, DeepSeekUsage.mk.injEq,
      i64wrap] <;>
    refine ⟨by omega, by omega, by omega, by omega, by omega⟩

theorem deepSeekUsage_add_comm_monoid_witness :
    (⟨11, 22, 33, 44, 55⟩ : DeepSeekUsage).Wf ∧
      DeepSeekUsage.add ⟨11, 22, 33, 44, 55⟩ DeepSeekUsage.new =
        ⟨11, 22, 33, 44, 55⟩ :=
  ⟨by decide,
    (deepSeekUsage_add_comm_monoid ⟨11, 22, 33, 44, 55⟩ DeepSeekUsage.new
      DeepSeekUsage.new (by decide)).2.2.1⟩

/-- C4: whenever validation fails, `send_request` returns the
`RequestParamError`, records no network attempt, and leaves the whole client
state (usage counters included) untouched. -/
theorem send_request_param_error (c : DeepSeekClient) (chats : List Chat)
    (net : NetOutcome) (h : c.check_params = false) :
    c.send_request chats net =
      (c, none, .error (DeepSeekError.new .RequestParamError
        "The parameters are not valid.")) := by
  unfold DeepSeekClient.send_request
  rw [h]
  simp

theorem send_request_param_error_witness :
    (DeepSeekClient.new DEEPSEEK_API_URL .DeepseekChat).check_params = false ∧
      (DeepSeekClient.new DEEPSEEK_API_URL .DeepseekChat).send_request []
          .sendFailed =
        (DeepSeekClient.new DEEPSEEK_API_URL .DeepseekChat, none,
          .error (DeepSeekError.new .RequestParamError
            "The parameters are not valid.")) :=
  ⟨rfl, send_request_param_error _ [] .sendFailed rfl⟩

/-- C10: `set_role` updates only the `role` field and never touches
`histroy`; consequently a node can end with `role` set while no system turn
exists at index 0, so the role/history invariant is not maintained by
`set_role`. -/
theorem set_role_leaves_history (n : AINode) (r : Option String) :
    AINode.set_role n r = { n with role := r } ∧
    (AINode.set_role n r).histroy = n.histroy ∧
    ((AINode.new (.DeepSeek
        (DeepSeekClient.new DEEPSEEK_API_URL .DeepseekChat))).set_role
        (some "X")).role = some "X" ∧
    ((AINode.new (.DeepSeek
        (DeepSeekClient.new DEEPSEEK_API_URL .DeepseekChat))).set_role
        (some "X")).histroy = [] :=
  ⟨rfl, rfl, rfl, rfl⟩

/-- C9: `Worknodecore::excute` is a pure dispatcher: `Start`, `End`,
`Local` and `User` return `Ok("")` with the node unchanged for every input;
the `AINode` variant forwards a success unchanged and wraps a failure in
exactly one `PilotError` layer with message "AI node failed to execute",
keeping the underlying `AINodeError` as the cause. -/
theorem worknodecore_excute_spec (input : String) (net : NetOutcome) :
    Worknodecore.excute .Start input net = (.Start, .ok "") ∧
    Worknodecore.excute .End input net = (.End, .ok "") ∧
    Worknodecore.excute .Local input net = (.Local, .ok "") ∧
    Worknodecore.excute .User input net = (.User, .ok "") ∧
    (∀ n : AINode,
      (Worknodecore.excute (.AINode n) input net).1 =
        .AINode (n.execute net).1 ∧
      (∀ s, (n.execute net).2 = .ok s →
        (Worknodecore.excute (.AINode n) input net).2 = .ok s) ∧
      (∀ e, (n.execute net).2 = .error e →
        (Worknodecore.excute (.AINode n) input net).2 =
          .error (PilotError.new (.AINodeErr e)
            "AI node failed to execute"))) := by
  refine ⟨rfl, rfl, rfl, rfl, fun n => ?_⟩
  rcases hx : n.execute net with ⟨n1, r⟩
  refine ⟨?_, ?_, ?_⟩
  · simp only [Worknodecore.excute, hx]
  · intro s hs
    have hr : r = Except.ok s := hs
    subst hr
    simp only [Worknodecore.excute, hx]
  · intro e he
    have hr : r = Except.error e := he
    subst hr
    simp only [Worknodecore.excute, hx]

theorem worknodecore_excute_spec_witness :
    (Worknodecore.excute
        (.AINode (AINode.new (.DeepSeek
          (DeepSeekClient.new DEEPSEEK_API_URL .DeepseekChat)))) "hi"
        .sendFailed).2 =
      .error (PilotError.new (.AINodeErr (AINodeError.new
          (.DeepSeekError (DeepSeekError.new .RequestParamError
            "The parameters are not valid."))
          "Failed to send request to DeepSeek"))
        "AI node failed to execute") :=
  ((worknodecore_excute_spec "hi" .sendFailed).2.2.2.2
      (AINode.new (.DeepSeek
        (DeepSeekClient.new DEEPSEEK_API_URL .DeepseekChat)))).2.2
    (AINodeError.new
      (.DeepSeekError (DeepSeekError.new .RequestParamError
        "The parameters are not valid."))
      "Failed to send request to DeepSeek") rfl

theorem check_frequency_panalty_iff (c : DeepSeekClient) :
    c.check_frequency_panalty = true ↔
      ∀ v, c.frequency_panalty = some v → -2 ≤ v ∧ v ≤ 2 := by
  unfold DeepSeekClient.check_frequency_panalty
  cases hf : c.frequency_panalty with
  | none => simp
  | some v =>
      simp only [Option.some.injEq, forall_eq']
      split_ifs with h
      · simp only [Bool.false_eq_true, false_iff]
        intro hc
        rcases h with h | h
        · linarith [hc.1]
        · linarith [hc.2]
      · push_neg at h
        simp [h.1, h.2]

theorem check_presence_penalty_iff (c : DeepSeekClient) :
    c.check_presence_penalty = true ↔
      ∀ v, c.presence_penalty = some v → -2 ≤ v ∧ v ≤ 2 := by
  unfold DeepSeekClient.check_presence_penalty
  cases hf : c.presence_penalty with
  | none => simp
  | some v =>
      simp only [Option.some.injEq, forall_eq']
      split_ifs with h
      · simp only [Bool.false_eq_true, false_iff]
        intro hc
        rcases h with h | h
        · linarith [hc.1]
        · linarith [hc.2]
      · push_neg at h
        simp [h.1, h.2]

theorem check_max_tokens_iff (c : DeepSeekClient) :
    c.check_max_tokens = true ↔
      ∀ v, c.max_tokens = some v → 1 ≤ v ∧ v ≤ 8192 := by
  unfold DeepSeekClient.check_max_tokens
  cases hf : c.max_tokens with
  | none => simp
  | some v =>
      simp only [Option.some.injEq, forall_eq']
      split_ifs with h
      · simp only [Bool.false_eq_true, false_iff]
        intro hc
        rcases h with h | h
        · omega
        · omega
      · push_neg at h
        simp [h.1, h.2]

theorem check_temperature_iff (c : DeepSeekClient) :
    c.check_temperature = true ↔
      ∀ v, c.temperature = some v → 0 ≤ v ∧ v ≤ 2 := by
  unfold DeepSeekClient.check_temperature
  cases hf : c.temperature with
  | none => simp
  | some v =>
      simp only [Option.some.injEq, forall_eq']
      split_ifs with h
      · simp only [Bool.false_eq_true, false_iff]
        intro hc
        rcases h with h | h
        · linarith [hc.1]
        · linarith [hc.2]
      · push_neg at h
        simp [h.1, h.2]

theorem check_top_p_iff (c : DeepSeekClient) :
    c.check_top_p = true ↔
      ∀ v, c.top_p = some v → 0 ≤ v ∧ v ≤ 1 := by
  unfold DeepSeekClient.check_top_p
  cases hf : c.top_p with
  | none => simp
  | some v =>
      simp only [Option.some.injEq, forall_eq']
      split_ifs with h
      · simp only [Bool.false_eq_true, false_iff]
        intro hc
        rcases h with h | h
        · linarith [hc.1]
        · linarith [hc.2]
      · push_neg at h
        simp [h.1, h.2]

theorem check_stream_option_iff (c : DeepSeekClient) :
    c.check_stream_option = true ↔
      (c.stream_option.isSome = true →
        c.stream.getD DeepSeekClient.default_stream = true) := by
  unfold DeepSeekClient.check_stream_option
  cases ho : c.stream_option <;> cases hs : c.stream <;>
    simp [DeepSeekClient.default_stream]

theorem check_top_logprobs_iff (c : DeepSeekClient) :
    c.check_top_logprobs = true ↔
      (c.top_logprobs.isSome = true → c.logprobs = true) := by
  unfold DeepSeekClient.check_top_logprobs
  cases hl : c.logprobs <;> cases ht : c.top_logprobs <;> simp

/-- C3: `check_params` accepts a client state exactly when the frequency and
presence penalties lie in [-2, 2] when set, `max_tokens` lies in [1, 8192]
when set, the temperature lies in [0, 2] when set, `top_p` lies in [0, 1]
when set, `stream_option` is unset unless the effective (post-default) value
of `stream` is `true`, `top_logprobs` is unset unless `logprobs` is `true`,
and an API key is present. -/
theorem check_params_iff (c : DeepSeekClient) :
    c.check_params = true ↔
      ((∀ v, c.frequency_panalty = some v → -2 ≤ v ∧ v ≤ 2) ∧
       (∀ v, c.presence_penalty = some v → -2 ≤ v ∧ v ≤ 2) ∧
       (∀ v, c.max_tokens = some v → 1 ≤ v ∧ v ≤ 8192) ∧
       (∀ v, c.temperature = some v → 0 ≤ v ∧ v ≤ 2) ∧
       (∀ v, c.top_p = some v → 0 ≤ v ∧ v ≤ 1) ∧
       (c.stream_option.isSome = true →
         c.stream.getD DeepSeekClient.default_stream = true) ∧
       (c.top_logprobs.isSome = true → c.logprobs = true) ∧
       c.api_key.isSome = true) := by
  unfold DeepSeekClient.check_params
  simp only [Bool.and_eq_true]
  rw [check_frequency_panalty_iff, check_max_tokens_iff,
    check_presence_penalty_iff, check_stream_option_iff, check_temperature_iff,
    check_top_p_iff, check_top_logprobs_iff]
  tauto

theorem check_params_iff_witness :
    ({ DeepSeekClient.new DEEPSEEK_API_URL .DeepseekChat with
        api_key := some "sk-test" } : DeepSeekClient).check_params = true :=
  (check_params_iff _).mpr
    (by simp [DeepSeekClient.new])

/-- C1: at the spec's scenario (client built with the default URL, model
Chat, no optional fields set, the two-message history), the serialized
request object carries the documented default for every unset option —
messages in order, model "deepseek-chat", 0 penalties, 4096 max tokens,
text response format, null stop, stream false, null stream options,
temperature 1, top_p 1, null tools, tool_choice "none", logprobs false,
null top_logprobs — but the frequency-penalty field is emitted under the
misspelled wire key `frequency_panalty`; no `frequency_penalty` key exists
in the object. -/
theorem into_request_default_scenario :
    (DeepSeekClient.new DEEPSEEK_API_URL .DeepseekChat).into_request_obj
        (DeepSeekClient.chats_to_json
          [Chat.new "system" "You are a helpful assistant",
           Chat.new "user" "Hi"]) =
      .obj [
        ("messages", .arr [
          .obj [("content", .str "You are a helpful assistant"),
                ("role", .str "system")],
          .obj [("content", .str "Hi"), ("role", .str "user")]]),
        ("model", .str "deepseek-chat"),
        ("frequency_panalty", .numQ 0),
        ("max_tokens", .numI 4096),
        ("presence_penalty", .numQ 0),
        ("response_format", .obj [("type", .str "text")]),
        ("stop", .null),
        ("stream", .bool false),
        ("stream_options", .null),
        ("temperature", .numQ 1),
        ("top_p", .numQ 1),
        ("tools", .null),
        ("tool_choice", .str "none"),
        ("logprobs", .bool false),
        ("top_logprobs", .null)] ∧
    ((DeepSeekClient.new DEEPSEEK_API_URL .DeepseekChat).into_request_obj
        (DeepSeekClient.chats_to_json
          [Chat.new "system" "You are a helpful assistant",
           Chat.new "user" "Hi"])).getKey "frequency_penalty" = .null ∧
    ((DeepSeekClient.new DEEPSEEK_API_URL .DeepseekChat).into_request_obj
        (DeepSeekClient.chats_to_json
          [Chat.new "system" "You are a helpful assistant",
           Chat.new "user" "Hi"])).getKey "frequency_panalty" = .numQ 0 :=
  ⟨rfl, rfl, rfl⟩

/-- C2 is false as stated: a client configured with the URL
"http://example.com" still POSTs to the fixed constant endpoint; the stored
`url` field is never consulted by `send_request`. -/
theorem send_request_url_counterexample :
    (({ DeepSeekClient.new "http://example.com" .DeepseekChat with
          api_key := some "k" } : DeepSeekClient).send_request []
        .sendFailed).2.1.map HttpRequest.url =
      some "https://api.deepseek.com/chat/completions" ∧
    ({ DeepSeekClient.new "http://example.com" .DeepseekChat with
        api_key := some "k" } : DeepSeekClient).url = "http://example.com" ∧
    ("https://api.deepseek.com/chat/completions" : String) ≠
      "http://example.com" :=
  ⟨rfl, rfl, by decide⟩

/-- C2 (amended): for every client state passing validation, the single
POST performed by `send_request` is directed to the fixed endpoint
`DEEPSEEK_API_URL` — the stored `url` field is not consulted — with headers
Content-Type: application/json and Authorization: Bearer <api_key>, and the
serialized request body. -/
theorem send_request_post_target (c : DeepSeekClient) (chats : List Chat)
    (net : NetOutcome) (h : c.check_params = true) :
    (c.send_request chats net).2.1 =
      some { url := DEEPSEEK_API_URL
             headers := [("Content-Type", "application/json"),
               ("Authorization", "Bearer " ++ c.api_key.getD "")]
             bodyObj :=
               c.into_request_obj (DeepSeekClient.chats_to_json chats) } ∧
    (∀ k, c.api_key = some k →
      (c.send_request chats net).2.1.map HttpRequest.headers =
        some [("Content-Type", "application/json"),
          ("Authorization", "Bearer " ++ k)]) := by
  have hmain : (c.send_request chats net).2.1 =
      some { url := DEEPSEEK_API_URL
             headers := [("Content-Type", "application/json"),
               ("Authorization", "Bearer " ++ c.api_key.getD "")]
             bodyObj :=
               c.into_request_obj (DeepSeekClient.chats_to_json chats) } := by
    unfold DeepSeekClient.send_request DeepSeekClient.send_request_raw
    rw [h]
    simp only [Bool.not_true, Bool.false_eq_true, if_false]
    cases net with
    | sendFailed => rfl
    | badStatus status detail => rfl
    | success body =>
        cases body with
        | unreadable => rfl
        | unparseable => rfl
        | json rt =>
            simp only []
            repeat' split <;> try rfl
  refine ⟨hmain, fun k hk => ?_⟩
  rw [hmain, hk]
  rfl

theorem send_request_post_target_witness :
    ({ DeepSeekClient.new DEEPSEEK_API_URL .DeepseekChat with
        api_key := some "sk" } : DeepSeekClient).check_params = true ∧
      (({ DeepSeekClient.new DEEPSEEK_API_URL .DeepseekChat with
            api_key := some "sk" } : DeepSeekClient).send_request []
          .sendFailed).2.1.map HttpRequest.url = some DEEPSEEK_API_URL := by
  have h := send_request_post_target
    { DeepSeekClient.new DEEPSEEK_API_URL .DeepseekChat with
        api_key := some "sk" } [] .sendFailed rfl
  exact ⟨rfl, by rw [h.1]; rfl⟩

/-- C7 is false as stated: on a node whose `role` is already set while its
history is empty (reachable via `set_role`), the builder's in-place write to
`histroy[0]` is out of bounds and the source panics (modelled as `none`)
instead of overwriting a system turn. -/
theorem role_builder_counterexample :
    AINode.roleBuilder
        { AINode.new (.DeepSeek
            (DeepSeekClient.new DEEPSEEK_API_URL .DeepseekChat)) with
          role := some "X" } (some "Y") = none :=
  rfl

/-- C7 (amended): setting `role` from unset to `Some(X)` inserts a system
Chat at index 0 (history grows by one, other entries keep their order);
setting it again when already set overwrites `histroy[0]` in place with a
system Chat (length unchanged, tail unchanged) provided the history is
nonempty — the in-place write panics (modelled as `none`) when the history
is empty. -/
theorem role_builder_spec (n : AINode) (r : String) :
    (n.role = none →
      AINode.roleBuilder n (some r) =
        some { n with role := some r,
                      histroy := Chat.new "system" r :: n.histroy } ∧
      ∀ n', AINode.roleBuilder n (some r) = some n' →
        n'.histroy.length = n.histroy.length + 1) ∧
    (n.role.isSome = true → n.histroy ≠ [] →
      AINode.roleBuilder n (some r) =
        some { n with role := some r,
                      histroy := Chat.new "system" r :: n.histroy.tail } ∧
      ∀ n', AINode.roleBuilder n (some r) = some n' →
        n'.histroy.length = n.histroy.length) ∧
    (n.role.isSome = true → n.histroy = [] →
      AINode.roleBuilder n (some r) = none) := by
  refine ⟨?_, ?_, ?_⟩
  · intro h0
    have hmain : AINode.roleBuilder n (some r) =
        some { n with role := some r,
                      histroy := Chat.new "system" r :: n.histroy } := by
      simp [AINode.roleBuilder, h0]
    refine ⟨hmain, fun n' hn' => ?_⟩
    rw [hmain] at hn'
    cases hn'
    simp
  · intro h1 h2
    obtain ⟨v, hv⟩ := Option.isSome_iff_exists.mp h1
    cases hh : n.histroy with
    | nil => exact absurd hh h2
    | cons a as =>
        have hmain : AINode.roleBuilder n (some r) =
            some { n with role := some r,
                          histroy := Chat.new "system" r :: as } := by
          simp [AINode.roleBuilder, hv, hh]
        refine ⟨hmain, fun n' hn' => ?_⟩
        rw [hmain] at hn'
        cases hn'
        simp [hh]
  · intro h1 h2
    obtain ⟨v, hv⟩ := Option.isSome_iff_exists.mp h1
    simp [AINode.roleBuilder, hv, h2]

theorem role_builder_spec_witness :
    AINode.roleBuilder
        (AINode.new (.DeepSeek
          (DeepSeekClient.new DEEPSEEK_API_URL .DeepseekChat))) (some "X") =
      some { AINode.new (.DeepSeek
              (DeepSeekClient.new DEEPSEEK_API_URL .DeepseekChat)) with
             role := some "X", histroy := [Chat.new "system" "X"] } ∧
    AINode.roleBuilder
        { AINode.new (.DeepSeek
            (DeepSeekClient.new DEEPSEEK_API_URL .DeepseekChat)) with
          role := some "X", histroy := [Chat.new "system" "X"] } (some "Y") =
      some { AINode.new (.DeepSeek
              (DeepSeekClient.new DEEPSEEK_API_URL .DeepseekChat)) with
             role := some "Y", histroy := [Chat.new "system" "Y"] } := by
  constructor
  · exact ((role_builder_spec _ "X").1 rfl).1
  · have h := ((role_builder_spec
      { AINode.new (.DeepSeek
          (DeepSeekClient.new DEEPSEEK_API_URL .DeepseekChat)) with
        role := some "X", histroy := [Chat.new "system" "X"] } "Y").2.1 rfl
      (by simp)).1
    simpa using h

theorem as_i64_getKey_of_null_or_empty (j : JsonValue) (k : String)
    (h : j.is_null = true ∨ j.is_empty = true) :
    (j.getKey k).as_i64 = none := by
  cases j <;>
    simp_all [JsonValue.is_null, JsonValue.is_empty, JsonValue.getKey,
      JsonValue.as_i64, List.isEmpty_iff]

/-- The response's `usage` object is absent, empty, or missing one of the
five counter fields (the malformed-usage condition of the spec). -/
def UsageIncomplete (rt : JsonValue) : Prop :=
  (rt.getKey "usage").is_null = true ∨ (rt.getKey "usage").is_empty = true ∨
    ((rt.getKey "usage").getKey "completion_tokens").as_i64 = none ∨
    ((rt.getKey "usage").getKey "prompt_tokens").as_i64 = none ∨
    ((rt.getKey "usage").getKey "prompt_cache_hit_tokens").as_i64 = none ∨
    ((rt.getKey "usage").getKey "prompt_cache_miss_tokens").as_i64 = none ∨
    ((rt.getKey "usage").getKey "total_tokens").as_i64 = none

theorem send_request_json_characterize (c : DeepSeekClient)
    (chats : List Chat) (rt : JsonValue) (h : c.check_params = true) :
    ((c.send_request chats (.success (.json rt))).1 = c ∧
      ∃ e, (c.send_request chats (.success (.json rt))).2.2 = .error e ∧
        e.error_type = .ResponseError) ∨
    (∃ ct pt ph pm tt,
      ((rt.getKey "usage").getKey "completion_tokens").as_i64 = some ct ∧
      ((rt.getKey "usage").getKey "prompt_tokens").as_i64 = some pt ∧
      ((rt.getKey "usage").getKey "prompt_cache_hit_tokens").as_i64 = some ph ∧
      ((rt.getKey "usage").getKey "prompt_cache_miss_tokens").as_i64 = some pm ∧
      ((rt.getKey "usage").getKey "total_tokens").as_i64 = some tt ∧
      (c.send_request chats (.success (.json rt))).1 =
        { c with
            last_usage := ⟨ct, pt, ph, pm, tt⟩
            total_usage := c.total_usage.add ⟨ct, pt, ph, pm, tt⟩ } ∧
      (c.send_request chats (.success (.json rt))).2.2 = .ok rt) := by
  unfold DeepSeekClient.send_request DeepSeekClient.send_request_raw
  rw [h]
  simp only [Bool.not_true, Bool.false_eq_true, if_false]
  split_ifs with h1 h2 h3 h4 <;> try (left; exact ⟨rfl, _, rfl, rfl⟩)
  repeat' split <;> try (left; exact ⟨rfl, _, rfl, rfl⟩)
  refine Or.inr ⟨_, _, _, _, _, ?_, ?_, ?_, ?_, ?_, rfl, rfl⟩ <;> assumption

/-- C6: on a validated call whose response parses to JSON, if the `usage`
object is absent, empty, or missing any of the five counter fields, then
`send_request` fails with a response-shape (`ResponseError`) error and the
client — in particular `last_usage` and `total_usage` — is unchanged; on a
successful call `last_usage` is replaced by the parsed counters and
`total_usage` becomes its old value plus the parsed counters. -/
theorem send_request_usage_spec (c : DeepSeekClient) (chats : List Chat)
    (rt : JsonValue) (h : c.check_params = true) :
    (UsageIncomplete rt →
      (c.send_request chats (.success (.json rt))).1 = c ∧
      ∃ e, (c.send_request chats (.success (.json rt))).2.2 = .error e ∧
        e.error_type = .ResponseError) ∧
    (∀ rt', (c.send_request chats (.success (.json rt))).2.2 = .ok rt' →
      ∃ ct pt ph pm tt,
        ((rt.getKey "usage").getKey "completion_tokens").as_i64 = some ct ∧
        ((rt.getKey "usage").getKey "prompt_tokens").as_i64 = some pt ∧
        ((rt.getKey "usage").getKey "prompt_cache_hit_tokens").as_i64 =
          some ph ∧
        ((rt.getKey "usage").getKey "prompt_cache_miss_tokens").as_i64 =
          some pm ∧
        ((rt.getKey "usage").getKey "total_tokens").as_i64 = some tt ∧
        (c.send_request chats (.success (.json rt))).1.last_usage =
          ⟨ct, pt, ph, pm, tt⟩ ∧
        (c.send_request chats (.success (.json rt))).1.total_usage =
          c.total_usage.add ⟨ct, pt, ph, pm, tt⟩) := by
  have hm := send_request_json_characterize c chats rt h
  constructor
  · intro hbad
    rcases hm with hm | ⟨ct, pt, ph, pm, tt, hct, hpt, hph, hpm, htt, _, _⟩
    · exact hm
    · exfalso
      rcases hbad with hb | hb | hb | hb | hb | hb | hb
      · rw [as_i64_getKey_of_null_or_empty _ "completion_tokens"
          (Or.inl hb)] at hct
        exact Option.noConfusion hct
      · rw [as_i64_getKey_of_null_or_empty _ "completion_tokens"
          (Or.inr hb)] at hct
        exact Option.noConfusion hct
      · rw [hb] at hct
        exact Option.noConfusion hct
      · rw [hb] at hpt
        exact Option.noConfusion hpt
      · rw [hb] at hph
        exact Option.noConfusion hph
      · rw [hb] at hpm
        exact Option.noConfusion hpm
      · rw [hb] at htt
        exact Option.noConfusion htt
  · intro rt' hok
    rcases hm with ⟨_, e, he, _⟩ |
      ⟨ct, pt, ph, pm, tt, hct, hpt, hph, hpm, htt, hcl, hres⟩
    · rw [he] at hok
      exact Except.noConfusion hok
    · exact ⟨ct, pt, ph, pm, tt, hct, hpt, hph, hpm, htt,
        by rw [hcl], by rw [hcl]⟩

theorem send_request_usage_spec_witness :
    (({ DeepSeekClient.new DEEPSEEK_API_URL .DeepseekChat with
          api_key := some "sk" } : DeepSeekClient).send_request []
        (.success (.json (.obj [("choices", .arr [.obj [("message",
          .obj [("content", .str "hello")])]])])))).1 =
      { DeepSeekClient.new DEEPSEEK_API_URL .DeepseekChat with
          api_key := some "sk" } :=
  ((send_request_usage_spec
      { DeepSeekClient.new DEEPSEEK_API_URL .DeepseekChat with
          api_key := some "sk" } []
      (.obj [("choices", .arr [.obj [("message",
        .obj [("content", .str "hello")])]])]) rfl).1 (Or.inl rfl)).1

/-- C8: `execute` composes the prompt as prefix + "\n" + input + "\n" +
suffix (literal newlines even when prefix or suffix is empty) and appends
it as a user turn before the network call; on success the history grows by
exactly two — the user turn then an assistant turn holding the returned
text, which equals the assistant message text extracted from the response —
and on failure the client error is propagated wrapped with the message
"Failed to send request to DeepSeek" while the history has grown by exactly
the one user turn. -/
theorem ainode_execute_spec (n : AINode) (net : NetOutcome) :
    (∀ s, (n.execute net).2 = .ok s →
      (n.execute net).1.histroy =
        n.histroy ++
          [Chat.new "user" (AINode.prompt_prefix n ++ "\n" ++ n.input ++ "\n"
              ++ n.prompt_suffix),
            Chat.new "assistant" s] ∧
      (n.execute net).1.histroy.length = n.histroy.length + 2 ∧
      ∃ rt, ((n.client).send_request
          (n.histroy ++ [Chat.new "user" (AINode.prompt_prefix n ++ "\n" ++
            n.input ++ "\n" ++ n.prompt_suffix)]) net).2.2 = .ok rt ∧
        s = ((((rt.getKey "choices").getIdx 0).getKey "message").getKey
          "content").displayString) ∧
    (∀ e, (n.execute net).2 = .error e →
      (n.execute net).1.histroy =
        n.histroy ++ [Chat.new "user" (AINode.prompt_prefix n ++ "\n" ++
          n.input ++ "\n" ++ n.prompt_suffix)] ∧
      (n.execute net).1.histroy.length = n.histroy.length + 1 ∧
      ∃ de, ((n.client).send_request
          (n.histroy ++ [Chat.new "user" (AINode.prompt_prefix n ++ "\n" ++
            n.input ++ "\n" ++ n.prompt_suffix)]) net).2.2 = .error de ∧
        e = AINodeError.new (.DeepSeekError de)
          "Failed to send request to DeepSeek") := by
  cases hsvc : n.service with
  | DeepSeek client =>
      have hcl : n.client = client := by simp [AINode.client, hsvc]
      rw [hcl]
      rcases hsr : client.send_request
        (n.histroy ++ [Chat.new "user" (AINode.prompt_prefix n ++ "\n" ++
          n.input ++ "\n" ++ n.prompt_suffix)]) net with ⟨c1, req, res⟩
      simp only [AINode.execute, hsvc, hsr]
      cases res with
      | error e0 =>
          constructor
          · intro s hs
            exact absurd hs (by simp)
          · intro e he
            simp only [Except.error.injEq] at he
            refine ⟨rfl, by simp, e0, rfl, he.symm⟩
      | ok rt =>
          constructor
          · intro s hs
            simp only [Except.ok.injEq] at hs
            subst hs
            exact ⟨by simp, by simp, rt, rfl, rfl⟩
          · intro e he
            exact absurd he (by simp)

theorem ainode_execute_spec_witness :
    ((AINode.new (.DeepSeek (DeepSeekClient.new DEEPSEEK_API_URL
        .DeepseekChat))).execute .sendFailed).1.histroy =
      [Chat.new "user" "\n\n"] := by
  have h := ((ainode_execute_spec (AINode.new (.DeepSeek
      (DeepSeekClient.new DEEPSEEK_API_URL .DeepseekChat))) .sendFailed).2
    (AINodeError.new (.DeepSeekError (DeepSeekError.new .RequestParamError
      "The parameters are not valid.")) "Failed to send request to DeepSeek")
    rfl).1
  exact h
